import Mathlib

/-!
Verification of the temporal scheduling and distribution engine of the
Telegram-Survey-Bot repository.

The Python sources are shallowly embedded as executable Lean definitions:

* a `datetime` is an integer count of seconds (proleptic Gregorian calendar,
  epoch 1970-01-01 00:00:00, no time zones, exactly as CPython's naive
  `datetime` arithmetic behaves); `timedelta` arithmetic is plain addition;
* calendar field access (`.year`, `.month`, `.day`, strftime) goes through
  the standard civil-from-days conversion;
* the APScheduler backend job table is a list of `Job` records;
  `BaseScheduler.add_job` with an explicit `id` raises `ConflictingIdError`
  when a live job with that id already exists (`replace_existing` defaults to
  `False`), and `remove_job` raises `JobLookupError` for an unknown id; both
  fallible operations are embedded in `Except`;
* Python exceptions (`IndexError`, `StopIteration`) are embedded as `Option`
  or `Except` failures at the call sites that can raise them.
-/

namespace SurveyBot

/-! ## Calendar model (CPython naive datetime as seconds since the epoch) -/

/-- Civil calendar triple obtained from a day number (days since 1970-01-01),
using Howard Hinnant's `civil_from_days` algorithm, which is what a
proleptic-Gregorian `datetime` stores as its `year`/`month`/`day` fields. -/
def civilFromDays (z0 : Int) : Int × Int × Int :=
  let z := z0 + 719468
  let era := z / 146097
  let doe := z - era * 146097
  let yoe := (doe - doe / 1460 + doe / 36524 - doe / 146096) / 365
  let y := yoe + era * 400
  let doy := doe - (365 * yoe + yoe / 4 - yoe / 100)
  let mp := (5 * doy + 2) / 153
  let d := doy - (153 * mp + 2) / 5 + 1
  let m := mp + (if mp < 10 then 3 else -9)
  (y + (if m ≤ 2 then 1 else 0), m, d)

/-- Day number (days since 1970-01-01) of a civil date, Hinnant's
`days_from_civil`; inverse of `civilFromDays`. -/
def daysFromCivil (y m d : Int) : Int :=
  let y' := y - (if m ≤ 2 then 1 else 0)
  let era := y' / 400
  let yoe := y' - era * 400
  let doy := (153 * (m + (if 2 < m then -3 else 9)) + 2) / 5 + d - 1
  let doe := yoe * 365 + yoe / 4 - yoe / 100 + doy
  era * 146097 + doe - 719468

/-- Builds the absolute second count of a civil datetime; this is how concrete
`datetime(...)` literals of the Python sources are written in this file. -/
def mkDateTime (y m d h mi s : Int) : Int :=
  daysFromCivil y m d * 86400 + h * 3600 + mi * 60 + s

/-- Day-of-month field of a datetime: Python `date.day`. -/
def dtDay (t : Int) : Int :=
  (civilFromDays (t / 86400)).2.2

/-- Two datetimes lie on the same calendar day exactly when they have the same
day number since the epoch. -/
def sameCalendarDay (a b : Int) : Bool :=
  a / 86400 = b / 86400

/-- Left-pads the decimal rendering of a natural number with zeros, as the
zero-padded `%m`, `%d`, `%H`, `%M` (width 2) and `%Y` (width 4) directives of
CPython's `strftime` do. -/
def padNum (width : Nat) (n : Int) : String :=
  let s := toString n.toNat
  if s.length < width then String.mk (List.replicate (width - s.length) '0') ++ s else s

/-- Python `date.strftime("%Y-%m-%d-%H:%M")`: the minute-precision rendering
used both for job ids and for database date keys; seconds are not rendered. -/
def strftimeYmdHM (t : Int) : String :=
  let c := civilFromDays (t / 86400)
  let secOfDay := t % 86400
  padNum 4 c.1 ++ "-" ++ padNum 2 c.2.1 ++ "-" ++ padNum 2 c.2.2 ++ "-" ++
    padNum 2 (secOfDay / 3600) ++ ":" ++ padNum 2 ((secOfDay % 3600) / 60)

/-! ## Enums and settings records (`bot_enums.py`, `bot_util_types.py`, `config.py`) -/

/-- Enum `SurveyType` of `bot_enums.py`. -/
inductive SurveyType where
  | SUBSCRIBE
  | DAILY
  | END
deriving DecidableEq, Repr

/-- Python `Enum.name` of a `SurveyType` member. -/
def SurveyType.name : SurveyType → String
  | .SUBSCRIBE => "SUBSCRIBE"
  | .DAILY => "DAILY"
  | .END => "END"

/-- Enum `EndUrlDistribution` of `bot_enums.py`. -/
inductive EndUrlDistribution where
  | NONE
  | DAY
  | TIME
  | MIXED
  | RANDOM
deriving DecidableEq, Repr

/-- Python `datetime.time`: the constructor enforces `0 <= hour <= 23` and
`0 <= minute <= 59`, so the bounds are part of the type. -/
structure Time where
  hour : Nat
  minute : Nat
  hour_lt : hour < 24
  minute_lt : minute < 60
deriving DecidableEq, Repr

/-- Seconds after midnight denoted by a `Time`. -/
def Time.secs (t : Time) : Int :=
  (t.hour : Int) * 3600 + (t.minute : Int) * 60

/-- Class `TimeSettings` of `bot_util_types.py`. -/
structure TimeSettings where
  wakeup_time : Time
  delay_minutes_after_wakeup : Int
  survey_count : Int
  delay_minutes_between_surveys : Int
deriving DecidableEq, Repr

/-- Record `dayCalculationSettings` of `config.py`. -/
structure DayCalculationSettings where
  daily_SurveyDays : List Int
  end_SurveyDays : List Int
deriving DecidableEq, Repr

/-- Record `timeCalculationSettings` of `config.py`. -/
structure TimeCalculationSettings where
  daily_DelayMinutesAfterWakeup : Int
  daily_SurveysPerDay : Int
  daily_DelayMinutesBetweenSurveys : Int
  end_DelayMinutesAfterWakeup : Int
  end_SurveysPerDay : Int
  end_DelayMinutesBetweenSurveys : Int
deriving DecidableEq, Repr

/-- Record `linkDeletionSettings` of `config.py`. -/
structure LinkDeletionSettings where
  start_DeleteLinkTimer : Bool
  start_DeleteDelayMinutes : Int
  daily_DeleteLinkTimer : Bool
  daily_DeleteDelayMinutes : Int
  end_DeleteLinkTimer : Bool
  end_DeleteDelayMinutes : Int
deriving DecidableEq, Repr

/-- Record `randomTimeShiftSettings` of `config.py`. -/
structure RandomTimeShiftSettings where
  daily_RandomTimeShiftMinutes : Int
  end_RandomTimeShiftMinutes : Int
deriving DecidableEq, Repr

/-- Record `urls` of `config.py`: one list of links per condition. -/
structure UrlSettings where
  start_url : List (List String)
  daily_url : List (List String)
  end_url : List (List String)
  end_url_distribution : EndUrlDistribution
deriving DecidableEq, Repr

/-- The parts of class `Config` (`config.py`) that the temporal engine and the
validator read. Datetimes are absolute second counts. -/
structure Config where
  subscription_start_date : Int
  subscription_deadline : Int
  useDayCalculation : Bool
  useTimeCalculation : Bool
  useTimeZoneCalculation : Bool
  daily_dates : List Int
  end_dates : List Int
  daily_times : List (List Time)
  end_times : List (List Time)
  dayCalculationSettings : DayCalculationSettings
  timeCalculationSettings : TimeCalculationSettings
  linkDeletionSettings : LinkDeletionSettings
  randomTimeShiftSettings : RandomTimeShiftSettings
  urls : UrlSettings
  endSurveyReminderEnabled : Bool
  endSurveyReminderDelayHours : Int
deriving DecidableEq, Repr

/-! ## TimeUtil (`time_util.py`) -/

/-- Source `TimeUtil.get_date_time`: combines the year/month/day of `date`
with the hour/minute of `time` (the result has second zero). On the
seconds axis this truncates `date` to its day start and adds the
time-of-day. -/
def getDateTime (date : Int) (t : Time) : Int :=
  date - date % 86400 + t.secs

/-- Source `TimeUtil.apply_time_offset`: shifts a datetime by a signed number
of seconds. -/
def applyTimeOffset (dateTime : Int) (offset : Int) : Int :=
  dateTime + offset

/-- Loop body of `TimeUtil.add_dates`: `cur` is the running datetime, `i` the
Python loop counter and `n` the remaining iteration count (`survey_count - i`).
On the first iteration the wakeup delay is added, on every later one the
between-surveys delay. -/
def addDatesAux (ts : TimeSettings) (cur : Int) (i : Nat) : Nat → List Int
  | 0 => []
  | n + 1 =>
    let cur' :=
      if i = 0 then cur + ts.delay_minutes_after_wakeup * 60
      else cur + ts.delay_minutes_between_surveys * 60
    cur' :: addDatesAux ts cur' (i + 1) n

/-- Source `TimeUtil.add_dates`: the wakeup-anchored per-day generator.
Python `range` of a negative count is empty, hence `Int.toNat`. -/
def addDates (date : Int) (ts : TimeSettings) : List Int :=
  addDatesAux ts (getDateTime date ts.wakeup_time) 0 ts.survey_count.toNat

/-- Source `TimeUtil.generate_date_list_for_subscriber_day_calc`, branch where
`time_settings` is a `TimeSettings` instance: for each day offset, the
day-shifted `today` is expanded through `add_dates` and the blocks are
concatenated in input order. -/
def dayCalcSettings (today : Int) (ts : TimeSettings) : List Int → List Int
  | [] => []
  | delta :: rest => addDates (today + delta * 86400) ts ++ dayCalcSettings today ts rest

/-- Source `TimeUtil.generate_date_list_for_subscriber_day_calc`, branch where
`time_settings` is a list of per-offset time lists: block `i` pairs
`time_settings[i]` with `day_list[i]`; Python raises `IndexError` (here:
`none`) when `day_list` is shorter than the list of time lists. -/
def dayCalcLists (today : Int) : List Int → List (List Time) → Option (List Int)
  | _, [] => some []
  | [], _ :: _ => none
  | delta :: drest, times :: trest =>
    (dayCalcLists today drest trest).map
      (fun tail => times.map (fun t => getDateTime (today + delta * 86400) t) ++ tail)

/-- Source `TimeUtil.get_time_offset`: `now` is truncated to the minute; the
signed clock difference is computed through `timedelta.seconds` (the
non-negative seconds component of the normalized timedelta, i.e. the value
modulo 86400, with days discarded); differences of at most five minutes
collapse to zero. -/
def getTimeOffset (now participantDateTime : Int) : Int :=
  let datetimeNow := now - now % 60
  let timedeltaSeconds :=
    if datetimeNow < participantDateTime then (participantDateTime - datetimeNow) % 86400
    else -((datetimeNow - participantDateTime) % 86400)
  if -300 ≤ timedeltaSeconds ∧ timedeltaSeconds ≤ 300 then 0 else timedeltaSeconds

/-! ## SchedulerCore (`schedule_util.py` over the APScheduler job table) -/

/-- One live APScheduler job as registered by `ScheduleUtil.add_job`: the
explicit id, the cron trigger's calendar fields (kept as the datetime they
came from), the per-kind jitter, and the callback arguments
`[survey_type, job_id, date_str]`. -/
structure Job where
  id : String
  date : Int
  jitter : Int
  kind : SurveyType
  dateStr : String
deriving DecidableEq, Repr

/-- APScheduler `get_job`: looks a job up by id in the job table. -/
def getJob (jobs : List Job) (jobId : String) : Option Job :=
  jobs.find? (fun j => j.id == jobId)

/-- APScheduler `add_job` with an explicit `id` and the default
`replace_existing=False`: raises `ConflictingIdError` (here `Except.error`)
when a job with that id is already present, otherwise appends the job. -/
def schedulerAddJob (jobs : List Job) (j : Job) : Except Unit (List Job) :=
  if jobs.any (fun x => x.id == j.id) then Except.error ()
  else Except.ok (jobs ++ [j])

/-- APScheduler `remove_job`: raises `JobLookupError` (here `Except.error`)
when no job with the id exists, otherwise deletes it from the table. -/
def schedulerRemoveJob (jobs : List Job) (jobId : String) : Except Unit (List Job) :=
  if jobs.any (fun x => x.id == jobId) then Except.ok (jobs.filter (fun x => x.id != jobId))
  else Except.error ()

/-- The job identity built in `ScheduleUtil.add_job` (line 168) and
`ScheduleUtil.add_jobs_from_list` (line 151): minute-formatted timestamp
concatenated with the survey-type name. -/
def jobIdOf (date : Int) (surveyType : SurveyType) : String :=
  strftimeYmdHM date ++ surveyType.name

/-- The job record that `ScheduleUtil.add_job` registers: per-kind jitter from
the config, id from `jobIdOf`, callback date string `date_str` at minute
precision. -/
def mkJob (config : Config) (date : Int) (surveyType : SurveyType) : Job :=
  let jitter :=
    if surveyType = SurveyType.DAILY then config.randomTimeShiftSettings.daily_RandomTimeShiftMinutes
    else config.randomTimeShiftSettings.end_RandomTimeShiftMinutes
  { id := jobIdOf date surveyType
    date := date
    jitter := jitter
    kind := surveyType
    dateStr := strftimeYmdHM date }

/-- Source `ScheduleUtil.add_job`: unconditionally hands the job to the
backend, so it fails when the id is already live. -/
def addJob (config : Config) (jobs : List Job) (date : Int) (surveyType : SurveyType) :
    Except Unit (List Job) :=
  schedulerAddJob jobs (mkJob config date surveyType)

/-- Source `ScheduleUtil.add_jobs_from_list`: for every datetime, the job is
added only when `get_job` finds no live job with its id; this is the guarded
(idempotent) registration path. -/
def addJobsFromList (config : Config) (surveyType : SurveyType) (jobs : List Job) :
    List Int → Except Unit (List Job)
  | [] => Except.ok jobs
  | date :: rest =>
    if (getJob jobs (jobIdOf date surveyType)).isNone then
      match addJob config jobs date surveyType with
      | Except.error e => Except.error e
      | Except.ok jobs' => addJobsFromList config surveyType jobs' rest
    else addJobsFromList config surveyType jobs rest

/-- Source `bot.remove_job_from_scheduler`: best-effort removal; a
`JobLookupError` from the backend is caught and logged (the Boolean records
whether the log line was emitted) and the job table is left as it was. -/
def removeJobFromScheduler (jobs : List Job) (jobId : String) : List Job × Bool :=
  match schedulerRemoveJob jobs jobId with
  | Except.ok jobs' => (jobs', false)
  | Except.error _ => (jobs, true)

/-- Source `EmergencyStart.restore_scheduler_entries`: re-registers every
future `(datetime, survey_type)` pair through `ScheduleUtil.add_job` — the
unguarded path, not `add_jobs_from_list`. -/
def restoreSchedulerEntries (config : Config) (jobs : List Job) :
    List (Int × SurveyType) → Except Unit (List Job)
  | [] => Except.ok jobs
  | (date, surveyType) :: rest =>
    match addJob config jobs date surveyType with
    | Except.error e => Except.error e
    | Except.ok jobs' => restoreSchedulerEntries config jobs' rest

/-! ## DistributionAssigner (`ScheduleUtil.calculate_end_distribution`) -/

/-- Loop of the `DAY` strategy: the index is bumped whenever the
day-of-month field (`date.day`) differs from the remembered one. -/
def dayDistLoop (lastDay : Int) (count : Nat) : List Int → List Nat
  | [] => []
  | date :: rest =>
    if lastDay ≠ dtDay date then (count + 1) :: dayDistLoop (dtDay date) (count + 1) rest
    else count :: dayDistLoop lastDay count rest

/-- Loop of the `TIME` strategy: the index is appended then incremented, and
reset to zero whenever the day-of-month field differs from the remembered
one. -/
def timeDistLoop (lastDay : Int) (count : Nat) : List Int → List Nat
  | [] => []
  | date :: rest =>
    if lastDay ≠ dtDay date then 0 :: timeDistLoop (dtDay date) 1 rest
    else count :: timeDistLoop lastDay (count + 1) rest

/-- Source `ScheduleUtil.calculate_end_distribution`: `last_day =
end_list[0].day` is evaluated before the strategy dispatch, so the empty list
raises `IndexError` (here `none`) for every strategy. The `RANDOM` strategy
draws one `randint` per element; the external generator is modelled by the
oracle `rand`, mapping the draw's position to its value. -/
def calcEndDistribution (rand : Nat → Nat) (strategy : EndUrlDistribution) :
    List Int → Option (List Nat)
  | [] => none
  | d0 :: rest =>
    match strategy with
    | EndUrlDistribution.NONE => some (List.replicate (d0 :: rest).length 0)
    | EndUrlDistribution.DAY => some (dayDistLoop (dtDay d0) 0 (d0 :: rest))
    | EndUrlDistribution.TIME => some (timeDistLoop (dtDay d0) 0 (d0 :: rest))
    | EndUrlDistribution.MIXED => some (List.range (d0 :: rest).length)
    | EndUrlDistribution.RANDOM => some ((List.range (d0 :: rest).length).map rand)

/-! ## OccurrenceStore rows (`db_handler.py`) -/

/-- One row of the `subscribers` table as written by
`DbHandler.insert_new_subscriber_entries`. -/
structure SubscriberRow where
  chat_id : Int
  date : String
  survey_type : String
  condition : Int
  end_distribution : Int
deriving DecidableEq, Repr

/-- The date key stored with every subscriber row
(`db_handler.py` line 127): `date.strftime("%Y-%m-%d-%H:%M")`. -/
def dbDateKey (date : Int) : String :=
  strftimeYmdHM date

/-- The `end_distribution` value used for the `i`-th inserted row: taken from
`end_distribution_list[i]` only for `END` rows with a distribution list
present (an out-of-range index is Python's `IndexError`, here `none`),
otherwise the running value is kept. -/
def rowEndValue (surveyType : SurveyType) (endDistList : Option (List Int))
    (endDistribution : Int) (i : Nat) : Option Int :=
  match surveyType, endDistList with
  | SurveyType.END, some l => l.get? i
  | _, _ => some endDistribution

/-- Loop of `DbHandler.insert_new_subscriber_entries`: `end_distribution`
starts at `-1` and is threaded through the iterations. -/
def insertRowsAux (chatId : Int) (surveyType : SurveyType) (condition : Int)
    (endDistList : Option (List Int)) (endDistribution : Int) (i : Nat) :
    List Int → Option (List SubscriberRow)
  | [] => some []
  | date :: rest =>
    match rowEndValue surveyType endDistList endDistribution i with
    | none => none
    | some e =>
      (insertRowsAux chatId surveyType condition endDistList e (i + 1) rest).map
        (fun tail => ⟨chatId, dbDateKey date, surveyType.name, condition, e⟩ :: tail)

/-- Source `DbHandler.insert_new_subscriber_entries`. -/
def insertNewSubscriberEntries (chatId : Int) (dateList : List Int)
    (surveyType : SurveyType) (condition : Int) (endDistList : Option (List Int)) :
    Option (List SubscriberRow) :=
  insertRowsAux chatId surveyType condition endDistList (-1) 0 dateList

/-! ## ConfigValidator (`config_validator.py`) -/

/-- The exceptions that can escape `ConfigValidator.validate_config`: the
aggregated `ConfigValidationException` carrying the full message list, or the
`StopIteration` raised by `next(iter(...))` on an empty list inside
`validate_urls`. -/
inductive PyExc where
  | StopIteration
  | ConfigValidationException (message_list : List String)
deriving DecidableEq, Repr

/-- Python `enumerate(l, start)`. -/
def enumerateFrom (start : Nat) : List α → List (Nat × α)
  | [] => []
  | a :: rest => (start, a) :: enumerateFrom (start + 1) rest

/-- Source `ConfigValidator.validate_dates_and_times`: returns the collected
message list. -/
def validateDatesAndTimes (c : Config) : List String :=
  (if c.subscription_start_date > c.subscription_deadline then
    ["subscription start date is after subscription deadline"] else []) ++
  (if !c.useDayCalculation && !c.useTimeCalculation then
    (if c.daily_dates.length < c.daily_times.length then
      ["Not enough dates in \x27daily_dates\x27 to match number of time lists in \x27daily_times\x27."] else []) ++
    (if c.end_dates.length < c.end_times.length then
      ["Not enough dates in \x27end_dates\x27 to match number of time lists in \x27end_times\x27."] else []) ++
    (if c.daily_times.length < c.daily_dates.length then
      ["Not enough time lists in \x27daily_times\x27 to match number of dates in \x27daily_dates\x27."] else []) ++
    (if c.end_times.length < c.end_dates.length then
      ["Not enough time lists in \x27end_times\x27 to match number of dates in \x27end_dates\x27."] else [])
   else []) ++
  (if c.useDayCalculation && !c.useTimeCalculation then
    (if c.dayCalculationSettings.daily_SurveyDays.length < c.daily_times.length then
      ["Not enough dates in \x27dayCalculationSettings.daily_SurveyDays\x27 to match number of time lists in \x27daily_times\x27."] else []) ++
    (if c.daily_times.length < c.dayCalculationSettings.daily_SurveyDays.length then
      ["Not enough time lists in \x27daily_times\x27 to match number of dates in \x27dayCalculationSettings.daily_SurveyDays\x27."] else []) ++
    (if c.dayCalculationSettings.end_SurveyDays.length < c.end_times.length then
      ["Not enough dates in \x27dayCalculationSettings.end_SurveyDays\x27 to match number of time lists in \x27end_times\x27."] else []) ++
    (if c.end_times.length < c.dayCalculationSettings.end_SurveyDays.length then
      ["Not enough time lists in \x27end_times\x27 to match number of dates in \x27dayCalculationSettings.end_SurveyDays\x27."] else [])
   else []) ++
  (if c.useTimeCalculation then
    (if c.timeCalculationSettings.daily_DelayMinutesAfterWakeup ≤ 0 then
      ["\x27timeCalculationSettings.daily_DelayMinutesAfterWakeup\x27 must be greater than 0"] else []) ++
    (if c.timeCalculationSettings.daily_SurveysPerDay ≤ 0 then
      ["\x27timeCalculationSettings.daily_SurveysPerDay\x27 must be greater than 0"] else []) ++
    (if ¬ c.timeCalculationSettings.daily_SurveysPerDay = 1 ∧
        c.timeCalculationSettings.daily_DelayMinutesBetweenSurveys ≤ 0 then
      ["\x27timeCalculationSettings.daily_DelayMinutesBetweenSurveys\x27 must be greater than 0"] else []) ++
    (if c.timeCalculationSettings.end_DelayMinutesAfterWakeup ≤ 0 then
      ["\x27timeCalculationSettings.end_DelayMinutesAfterWakeup\x27 must be greater than 0"] else []) ++
    (if c.timeCalculationSettings.end_SurveysPerDay < 0 then
      ["\x27timeCalculationSettings.end_SurveysPerDay\x27 must be greater or equal than 0"] else []) ++
    (if ¬ (0 ≤ c.timeCalculationSettings.end_SurveysPerDay ∧
           c.timeCalculationSettings.end_SurveysPerDay ≤ 1) ∧
        c.timeCalculationSettings.end_DelayMinutesBetweenSurveys ≤ 0 then
      ["\x27timeCalculationSettings.end_DelayMinutesBetweenSurveys\x27 must be greater than 0"] else [])
   else [])

/-- Source `ConfigValidator.validate_link_deletion_settings`. -/
def validateLinkDeletionSettings (c : Config) : List String :=
  (if c.linkDeletionSettings.start_DeleteLinkTimer &&
      decide (c.linkDeletionSettings.start_DeleteDelayMinutes ≤ 0) then
    ["\x27linkDeletionSettings.start_DeleteDelayMinutes\x27 must be greater than 0"] else []) ++
  (if c.linkDeletionSettings.daily_DeleteLinkTimer &&
      decide (c.linkDeletionSettings.daily_DeleteDelayMinutes ≤ 0) then
    ["\x27linkDeletionSettings.daily_DeleteDelayMinutes\x27 must be greater than 0"] else []) ++
  (if c.linkDeletionSettings.end_DeleteLinkTimer &&
      decide (c.linkDeletionSettings.end_DeleteDelayMinutes ≤ 0) then
    ["\x27linkDeletionSettings.end_DeleteDelayMinutes\x27 must be greater than 0"] else []) ++
  (if c.endSurveyReminderEnabled && decide (c.endSurveyReminderDelayHours ≤ 0) then
    ["\x27endSurveyReminderDelayHours\x27 must be greater than 0"] else [])

/-- Source `ConfigValidator.validate_urls`. The two `next(iter(...))` calls
raise `StopIteration` on an empty list, which escapes the validator and
discards every message collected so far; this is embedded as `Except.error`.
Messages are reproduced verbatim, including the source's spacing. -/
def validateUrls (c : Config) : Except PyExc (List String) :=
  let lenStart := c.urls.start_url.length
  let lenDaily := c.urls.daily_url.length
  let lenEnd := c.urls.end_url.length
  let e0 : List String :=
    if ¬ (lenStart = lenDaily ∧ lenDaily = lenEnd) then
      ["Different count of conditions found in urls section."] else []
  match c.urls.end_url_distribution with
  | EndUrlDistribution.TIME =>
    if c.useTimeCalculation then
      let timeCount := c.timeCalculationSettings.end_SurveysPerDay
      Except.ok (e0 ++ (enumerateFrom 1 c.urls.end_url).filterMap
        (fun p => if (p.2.length : Int) ≠ timeCount then
          some ("Different count of links found at position " ++ toString p.1 ++
            "in \x27end_url\x27, while \x27end_SurveysPerDay\x27 are " ++ toString timeCount)
          else none))
    else
      match c.end_times with
      | [] => Except.error PyExc.StopIteration
      | t0 :: restTimes =>
        let lenFst := t0.length
        if ¬ (restTimes.all (fun l => l.length = lenFst)) then
          Except.ok (e0 ++ ["Different count of times found in \x27end_times\x27"])
        else
          Except.ok (e0 ++ (enumerateFrom 1 c.urls.end_url).filterMap
            (fun p => if p.2.length ≠ lenFst then
              some ("Different count of links found at position " ++ toString p.1 ++
                " in \x27end_url\x27, while lenght of \x27end_times\x27 are " ++ toString lenFst)
              else none))
  | EndUrlDistribution.DAY =>
    if c.useDayCalculation then
      let dayCount := c.dayCalculationSettings.end_SurveyDays.length
      Except.ok (e0 ++ (enumerateFrom 1 c.urls.end_url).filterMap
        (fun p => if p.2.length ≠ dayCount then
          some ("Different count of links found at position " ++ toString p.1 ++
            " in \x27end_url\x27, while number of days in \x27end_SurveyDays\x27 are " ++ toString dayCount)
          else none))
    else
      let dayCount := c.end_dates.length
      Except.ok (e0 ++ (enumerateFrom 1 c.urls.end_url).filterMap
        (fun p => if p.2.length ≠ dayCount then
          some ("Different count of links found at position " ++ toString p.1 ++
            " in \x27end_url\x27, while number of days in \x27end_dates\x27 are " ++ toString dayCount)
          else none))
  | EndUrlDistribution.MIXED =>
    let count : Int :=
      if ¬ c.useTimeCalculation then
        ((c.end_times.map (fun l => l.length)).sum : Int)
      else if c.useDayCalculation then
        c.timeCalculationSettings.end_SurveysPerDay *
          (c.dayCalculationSettings.end_SurveyDays.length : Int)
      else
        c.timeCalculationSettings.end_SurveysPerDay * (c.end_dates.length : Int)
    Except.ok (e0 ++ (enumerateFrom 1 c.urls.end_url).filterMap
      (fun p => if (p.2.length : Int) ≠ count then
        some ("Different count of links found at position " ++ toString p.1 ++
          " in \x27end_url\x27, while number of urls should be " ++ toString count)
        else none))
  | EndUrlDistribution.NONE =>
    Except.ok (e0 ++ (enumerateFrom 1 c.urls.end_url).filterMap
      (fun p => if p.2.length ≠ 1 then
        some "In distributionmode NONE only one url per condition is allowed"
        else none))
  | EndUrlDistribution.RANDOM =>
    match c.urls.end_url with
    | [] => Except.error PyExc.StopIteration
    | u0 :: restUrls =>
      let lenFst := u0.length
      if ¬ (restUrls.all (fun l => l.length = lenFst)) then
        Except.ok (e0 ++ ["In distributionmode RANDOM every condition should have the same number of links"])
      else Except.ok e0

/-- Source `ConfigValidator.validate_config`: concatenates the three message
lists and raises one `ConfigValidationException` carrying all of them when
the list is non-empty. -/
def validateConfig (c : Config) : Except PyExc Unit :=
  match validateUrls c with
  | Except.error e => Except.error e
  | Except.ok urlMsgs =>
    let errorList := validateDatesAndTimes c ++ validateLinkDeletionSettings c ++ urlMsgs
    if errorList ≠ [] then Except.error (PyExc.ConfigValidationException errorList)
    else Except.ok ()

/-! ## Concrete instances used by counterexamples and witnesses -/

/-- The time 07:00. -/
def timeSeven : Time := ⟨7, 0, by decide, by decide⟩

/-- The time 09:00. -/
def timeNine : Time := ⟨9, 0, by decide, by decide⟩

/-- Wakeup-anchored settings of the spec scenario: wakeup 07:00, thirty
minutes delay after wakeup, three surveys, sixty minutes between surveys. -/
def wakeupSettingsEx : TimeSettings := ⟨timeSeven, 30, 3, 60⟩

/-- A small well-formed configuration. -/
def minimalConfig : Config :=
  { subscription_start_date := mkDateTime 2024 1 1 0 0 0
    subscription_deadline := mkDateTime 2024 2 1 0 0 0
    useDayCalculation := false
    useTimeCalculation := false
    useTimeZoneCalculation := false
    daily_dates := [mkDateTime 2024 3 1 0 0 0]
    end_dates := [mkDateTime 2024 4 1 0 0 0]
    daily_times := [[timeNine]]
    end_times := [[timeNine]]
    dayCalculationSettings := ⟨[], []⟩
    timeCalculationSettings := ⟨1, 1, 1, 1, 1, 1⟩
    linkDeletionSettings := ⟨false, 1, false, 1, false, 1⟩
    randomTimeShiftSettings := ⟨5, 7⟩
    urls := ⟨[["s"]], [["d"]], [["e"]], EndUrlDistribution.NONE⟩
    endSurveyReminderEnabled := false
    endSurveyReminderDelayHours := 1 }

/-- A configuration holding one genuine validation violation (subscription
start after deadline) together with an empty `end_url` under the `RANDOM`
distribution. -/
def stopIterConfig : Config :=
  { minimalConfig with
    subscription_start_date := mkDateTime 2024 5 1 0 0 0
    subscription_deadline := mkDateTime 2024 4 1 0 0 0
    urls := ⟨[], [], [], EndUrlDistribution.RANDOM⟩ }

/-! ## Closed form of the wakeup-anchored generator -/

/-- After the first iteration, the `add_dates` loop only ever adds the
between-surveys delay. -/
theorem addDatesAux_succ (ts : TimeSettings) (cur : Int) (i n : Nat) :
    addDatesAux ts cur (i + 1) n =
      (List.range n).map
        (fun (j : Nat) => cur + ((j : Int) + 1) * (ts.delay_minutes_between_surveys * 60)) := by
  induction n generalizing cur i with
  | zero => rfl
  | succ n ih =>
    have hstep : addDatesAux ts cur (i + 1) (n + 1) =
        (cur + ts.delay_minutes_between_surveys * 60) ::
          addDatesAux ts (cur + ts.delay_minutes_between_surveys * 60) (i + 2) n := by
      simp [addDatesAux]
    rw [hstep, List.range_succ_eq_map, List.map_cons, List.map_map, ih]
    refine congrArg₂ _ (by push_cast; ring) (List.map_congr_left ?_)
    intro j hj
    simp only [Function.comp]
    push_cast
    ring

/-- Closed form of `TimeUtil.add_dates`: the `j`-th element is the wakeup time
of the anchor day, plus the after-wakeup delay, plus `j` between-surveys
delays. -/
theorem addDates_eq (date : Int) (ts : TimeSettings) :
    addDates date ts =
      (List.range ts.survey_count.toNat).map
        (fun (j : Nat) => getDateTime date ts.wakeup_time + ts.delay_minutes_after_wakeup * 60 +
          (j : Int) * (ts.delay_minutes_between_surveys * 60)) := by
  unfold addDates
  cases hn : ts.survey_count.toNat with
  | zero => rfl
  | succ n =>
    have hstep : addDatesAux ts (getDateTime date ts.wakeup_time) 0 (n + 1) =
        (getDateTime date ts.wakeup_time + ts.delay_minutes_after_wakeup * 60) ::
          addDatesAux ts (getDateTime date ts.wakeup_time + ts.delay_minutes_after_wakeup * 60)
            1 n := by
      simp [addDatesAux]
    rw [hstep, addDatesAux_succ, List.range_succ_eq_map, List.map_cons, List.map_map]
    refine congrArg₂ _ (by push_cast; ring) (List.map_congr_left ?_)
    intro j hj
    simp only [Function.comp]
    push_cast
    ring

/-! ## Claim C7: the wakeup-anchored generator -/

/-- C7: for every anchor date, wakeup time, after-wakeup delay, survey count
at least one and between-surveys delay, `TimeUtil.add_dates` produces exactly
`survey_count` timestamps; the first is the anchor day's wakeup time plus the
after-wakeup delay (in minutes), and each later one is its predecessor plus
the between-surveys delay. -/
theorem wakeupGeneratorSpec (date : Int) (ts : TimeSettings) (h : 1 ≤ ts.survey_count) :
    ((addDates date ts).length : Int) = ts.survey_count ∧
    (addDates date ts).head? =
      some (getDateTime date ts.wakeup_time + ts.delay_minutes_after_wakeup * 60) ∧
    ∀ i : Nat, ∀ hi : i + 1 < (addDates date ts).length,
      (addDates date ts)[i + 1] =
        (addDates date ts)[i] + ts.delay_minutes_between_surveys * 60 := by
  have he := addDates_eq date ts
  refine ⟨?_, ?_, ?_⟩
  · rw [he]
    simp only [List.length_map, List.length_range]
    omega
  · rw [he]
    have hn : ts.survey_count.toNat ≠ 0 := by omega
    obtain ⟨n, hn'⟩ := Nat.exists_eq_succ_of_ne_zero hn
    rw [hn', List.range_succ_eq_map, List.map_cons]
    simp
  · intro i hi
    simp only [he, List.getElem_map, List.getElem_range]
    push_cast
    ring

/-- Witness for C7, the spec scenario: wakeup 07:00, delay 30, three surveys,
sixty minutes apart, on 2024-03-10. -/
theorem wakeupGeneratorSpecApplied :
    ((addDates (mkDateTime 2024 3 10 12 0 0) wakeupSettingsEx).length : Int) =
      wakeupSettingsEx.survey_count ∧
    (addDates (mkDateTime 2024 3 10 12 0 0) wakeupSettingsEx).head? =
      some (getDateTime (mkDateTime 2024 3 10 12 0 0) wakeupSettingsEx.wakeup_time +
        wakeupSettingsEx.delay_minutes_after_wakeup * 60) ∧
    ∀ i : Nat,
      ∀ hi : i + 1 < (addDates (mkDateTime 2024 3 10 12 0 0) wakeupSettingsEx).length,
      (addDates (mkDateTime 2024 3 10 12 0 0) wakeupSettingsEx)[i + 1] =
        (addDates (mkDateTime 2024 3 10 12 0 0) wakeupSettingsEx)[i] +
          wakeupSettingsEx.delay_minutes_between_surveys * 60 :=
  wakeupGeneratorSpec (mkDateTime 2024 3 10 12 0 0) wakeupSettingsEx (by decide)

/-! ## Claim C3: the empty timestamp sequence -/

/-- C3: the line `last_day = end_list[0].day` of
`ScheduleUtil.calculate_end_distribution` runs before the strategy dispatch,
so the empty sequence raises `IndexError` (embedded as `none`) under every
strategy instead of returning the empty index sequence. -/
theorem emptyListRaises (rand : Nat → Nat) (strategy : EndUrlDistribution) :
    calcEndDistribution rand strategy [] = none := rfl

/-! ## Claim C10: the discovered time-zone offset -/

/-- C10: for a participant-reported datetime less than one day away from the
minute-truncated current clock, `TimeUtil.get_time_offset` returns the signed
difference in seconds (positive when the participant is ahead), except that a
difference of at most 300 seconds collapses to exactly zero. -/
theorem timeZoneOffsetSpec (now participant : Int)
    (h : (participant - (now - now % 60)).natAbs < 86400) :
    getTimeOffset now participant =
      if (participant - (now - now % 60)).natAbs ≤ 300 then 0
      else participant - (now - now % 60) := by
  simp only [getTimeOffset]
  split_ifs <;> omega

/-- Witness for C10: participant clock 2024-01-01 12:03:00 against current
clock 2024-01-01 10:00:30 gives offset 7350 seconds. -/
theorem timeZoneOffsetSpecApplied :
    ((mkDateTime 2024 1 1 12 3 0) -
      ((mkDateTime 2024 1 1 10 0 30) - (mkDateTime 2024 1 1 10 0 30) % 60)).natAbs < 86400 ∧
    getTimeOffset (mkDateTime 2024 1 1 10 0 30) (mkDateTime 2024 1 1 12 3 0) =
      if ((mkDateTime 2024 1 1 12 3 0) -
          ((mkDateTime 2024 1 1 10 0 30) - (mkDateTime 2024 1 1 10 0 30) % 60)).natAbs ≤ 300
      then 0
      else (mkDateTime 2024 1 1 12 3 0) -
        ((mkDateTime 2024 1 1 10 0 30) - (mkDateTime 2024 1 1 10 0 30) % 60) :=
  ⟨by decide, timeZoneOffsetSpec (mkDateTime 2024 1 1 10 0 30) (mkDateTime 2024 1 1 12 3 0)
    (by decide)⟩

/-! ## Claim C6: best-effort unregistration -/

/-- C6: when no job with the given id exists (the jittered trigger has
already fired), `bot.remove_job_from_scheduler` does not raise: the backend's
`JobLookupError` is caught, the condition is logged (Boolean `true`), and the
job table is left unmodified. -/
theorem unregisterMissingJobSafe (jobs : List Job) (jobId : String)
    (h : getJob jobs jobId = none) :
    removeJobFromScheduler jobs jobId = (jobs, true) := by
  have hany : jobs.any (fun x => x.id == jobId) = false := by
    rw [List.any_eq_false]
    intro x hx
    rw [getJob, List.find?_eq_none] at h
    exact h x hx
  simp [removeJobFromScheduler, schedulerRemoveJob, hany]

/-- Witness for C6: removing a job from an empty job table. -/
theorem unregisterMissingJobSafeApplied :
    removeJobFromScheduler [] "2030-01-01-09:00DAILY" = ([], true) :=
  unregisterMissingJobSafe [] "2030-01-01-09:00DAILY" rfl

/-! ## Claim C5: re-running recovery -/

/-- C5: `EmergencyStart.restore_scheduler_entries` re-registers future pairs
through the unguarded `ScheduleUtil.add_job`, not through the guarded
`add_jobs_from_list`; a first run from an empty job table succeeds, and an
immediate second run raises the backend's `ConflictingIdError` on its first
pair instead of performing an idempotent no-op. -/
theorem recoveryRerunRaises :
    restoreSchedulerEntries minimalConfig []
      [(mkDateTime 2030 1 1 9 0 0, SurveyType.DAILY)] =
      Except.ok [mkJob minimalConfig (mkDateTime 2030 1 1 9 0 0) SurveyType.DAILY] ∧
    restoreSchedulerEntries minimalConfig
      [mkJob minimalConfig (mkDateTime 2030 1 1 9 0 0) SurveyType.DAILY]
      [(mkDateTime 2030 1 1 9 0 0, SurveyType.DAILY)] = Except.error () :=
  ⟨rfl, rfl⟩

/-! ## Claim C9: minute-precision identities and keys -/

/-- The minute-precision rendering only depends on the timestamp's minute:
the year, month, day, hour and minute fields are all functions of
the quotient by 60, and the seconds are never rendered. -/
theorem strftimeYmdHM_eq_of_same_minute (t1 t2 : Int) (h : t1 / 60 = t2 / 60) :
    strftimeYmdHM t1 = strftimeYmdHM t2 := by
  have hd : t1 / 86400 = t2 / 86400 := by omega
  have hh : (t1 % 86400) / 3600 = (t2 % 86400) / 3600 := by omega
  have hm : ((t1 % 86400) % 3600) / 60 = ((t2 % 86400) % 3600) / 60 := by omega
  simp only [strftimeYmdHM, hd, hh, hm]

/-- The date keys of rows written by `insert_new_subscriber_entries` (without
a distribution list) are exactly the minute renderings of the inserted
datetimes. -/
theorem insertRowsAux_dates (chatId : Int) (st : SurveyType) (condition : Int)
    (ed : Int) (i : Nat) (dateList : List Int) (rows : List SubscriberRow)
    (h : insertRowsAux chatId st condition none ed i dateList = some rows) :
    rows.map (fun r => r.date) = dateList.map dbDateKey := by
  induction dateList generalizing ed i rows with
  | nil =>
    simp only [insertRowsAux, Option.some.injEq] at h
    subst h
    rfl
  | cons d rest ih =>
    cases st <;>
    · simp only [insertRowsAux, rowEndValue, Option.map_eq_some'] at h
      obtain ⟨tail, htail, hrows⟩ := h
      subst hrows
      simp only [List.map_cons]
      rw [ih _ _ _ htail]

/-- C9: job identities and stored occurrence date keys are both the timestamp
rendered at minute precision, so timestamps in the same calendar minute get
the same job id and the same date key (seconds silently discarded), and the
key stored with an occurrence equals the date string the job's callback is
invoked with. -/
theorem minuteKeySpec (t1 t2 : Int) (st : SurveyType) (h : t1 / 60 = t2 / 60) :
    jobIdOf t1 st = jobIdOf t2 st ∧
    dbDateKey t1 = dbDateKey t2 ∧
    (∀ config : Config, (mkJob config t1 st).dateStr = dbDateKey t1 ∧
      (mkJob config t1 st).id = dbDateKey t1 ++ st.name) ∧
    (∀ (chatId condition : Int) (dateList : List Int) (rows : List SubscriberRow),
      insertNewSubscriberEntries chatId dateList st condition none = some rows →
      rows.map (fun r => r.date) = dateList.map dbDateKey) := by
  have hs := strftimeYmdHM_eq_of_same_minute t1 t2 h
  refine ⟨?_, ?_, ?_, ?_⟩
  · simp only [jobIdOf, hs]
  · simp only [dbDateKey, hs]
  · intro config
    exact ⟨rfl, rfl⟩
  · intro chatId condition dateList rows hins
    exact insertRowsAux_dates chatId st condition (-1) 0 dateList rows hins

/-- Witness for C9: 09:00:10 and 09:00:59 of 2024-01-05 lie in the same
minute. -/
theorem minuteKeySpecApplied :
    jobIdOf (mkDateTime 2024 1 5 9 0 10) SurveyType.END =
      jobIdOf (mkDateTime 2024 1 5 9 0 59) SurveyType.END ∧
    dbDateKey (mkDateTime 2024 1 5 9 0 10) = dbDateKey (mkDateTime 2024 1 5 9 0 59) ∧
    (∀ config : Config,
      (mkJob config (mkDateTime 2024 1 5 9 0 10) SurveyType.END).dateStr =
        dbDateKey (mkDateTime 2024 1 5 9 0 10) ∧
      (mkJob config (mkDateTime 2024 1 5 9 0 10) SurveyType.END).id =
        dbDateKey (mkDateTime 2024 1 5 9 0 10) ++ SurveyType.END.name) ∧
    (∀ (chatId condition : Int) (dateList : List Int) (rows : List SubscriberRow),
      insertNewSubscriberEntries chatId dateList SurveyType.END condition none = some rows →
      rows.map (fun r => r.date) = dateList.map dbDateKey) :=
  minuteKeySpec (mkDateTime 2024 1 5 9 0 10) (mkDateTime 2024 1 5 9 0 59) SurveyType.END
    (by decide)

/-! ## Claim C1: idempotent guarded registration -/

/-- C1: with no live job for the pair's id, the guarded registration
`ScheduleUtil.add_jobs_from_list` performed twice for the same
`(timestamp, kind)` pair leaves exactly one live job whose id is the
minute-formatted timestamp concatenated with the kind name, and the second
registration is a no-op. -/
theorem registerTwiceOneJob (config : Config) (st : SurveyType) (jobs : List Job) (date : Int)
    (h : getJob jobs (jobIdOf date st) = none) :
    ∃ jobs1,
      addJobsFromList config st jobs [date] = Except.ok jobs1 ∧
      addJobsFromList config st jobs1 [date] = Except.ok jobs1 ∧
      (jobs1.filter (fun j => j.id == jobIdOf date st)).length = 1 ∧
      jobIdOf date st = strftimeYmdHM date ++ st.name := by
  have hnone : ∀ x ∈ jobs, ¬ (x.id == jobIdOf date st) = true := by
    rw [getJob, List.find?_eq_none] at h
    exact h
  have hany : jobs.any (fun x => x.id == (mkJob config date st).id) = false := by
    rw [List.any_eq_false]
    exact hnone
  have hmk : (mkJob config date st).id = jobIdOf date st := rfl
  refine ⟨jobs ++ [mkJob config date st], ?_, ?_, ?_, rfl⟩
  · simp only [addJobsFromList, h, Option.isNone_none, if_pos, addJob, schedulerAddJob,
      hany, Bool.false_eq_true, if_neg]
    simp
  · have hfind : getJob (jobs ++ [mkJob config date st]) (jobIdOf date st) =
        some (mkJob config date st) := by
      rw [getJob, List.find?_append]
      rw [getJob] at h
      rw [h]
      simp [List.find?_cons, hmk]
    simp only [addJobsFromList, hfind, Option.isNone_some, Bool.false_eq_true, if_neg]
    simp
  · rw [List.filter_append]
    have h1 : jobs.filter (fun j => j.id == jobIdOf date st) = [] :=
      List.filter_eq_nil_iff.mpr hnone
    rw [h1]
    simp [List.filter_cons, hmk]

/-- Witness for C1: registering 2031-05-06 07:08 END twice on an empty job
table. -/
theorem registerTwiceOneJobApplied :
    ∃ jobs1,
      addJobsFromList minimalConfig SurveyType.END [] [mkDateTime 2031 5 6 7 8 0] =
        Except.ok jobs1 ∧
      addJobsFromList minimalConfig SurveyType.END jobs1 [mkDateTime 2031 5 6 7 8 0] =
        Except.ok jobs1 ∧
      (jobs1.filter (fun j => j.id == jobIdOf (mkDateTime 2031 5 6 7 8 0) SurveyType.END)).length
        = 1 ∧
      jobIdOf (mkDateTime 2031 5 6 7 8 0) SurveyType.END =
        strftimeYmdHM (mkDateTime 2031 5 6 7 8 0) ++ SurveyType.END.name :=
  registerTwiceOneJob minimalConfig SurveyType.END [] (mkDateTime 2031 5 6 7 8 0) rfl

/-! ## Claim C2: the DAY distribution strategy -/

/-- Length preservation of the DAY loop. -/
theorem dayDistLoop_length (l : List Int) : ∀ (last : Int) (c : Nat),
    (dayDistLoop last c l).length = l.length := by
  induction l with
  | nil => intro last c; rfl
  | cons e rest ih =>
    intro last c
    simp only [dayDistLoop]
    split <;> simp [ih]

/-- The first index produced by the DAY loop after remembering day `dtDay e`
and count `c` is `c` plus one exactly when the next day-of-month field
differs from `dtDay e`. -/
theorem dayDistLoop_head_rel (rest : List Int) (e : Int) (c : Nat) (y : Int × Nat)
    (hy : (rest.zip (dayDistLoop (dtDay e) c rest)).head? = some y) :
    y.2 = c + if dtDay y.1 = dtDay e then 0 else 1 := by
  cases rest with
  | nil => simp at hy
  | cons f r =>
    simp only [dayDistLoop] at hy
    split at hy
    · rename_i hne
      simp only [List.zip_cons_cons, List.head?_cons, Option.some.injEq] at hy
      subst hy
      rw [if_neg (fun hh => hne hh.symm)]
    · rename_i hcond
      have he : dtDay e = dtDay f := not_ne_iff.mp hcond
      simp only [List.zip_cons_cons, List.head?_cons, Option.some.injEq] at hy
      subst hy
      rw [if_pos he.symm]
      rfl

/-- Consecutive indices produced by the DAY loop differ by one exactly when
the day-of-month fields of the corresponding timestamps differ. -/
theorem dayDistLoop_chain (l : List Int) : ∀ (d : Int) (c : Nat),
    List.Chain' (fun p q : Int × Nat => q.2 = p.2 + if dtDay q.1 = dtDay p.1 then 0 else 1)
      (l.zip (dayDistLoop (dtDay d) c l)) := by
  induction l with
  | nil => intro d c; simp
  | cons e rest ih =>
    intro d c
    simp only [dayDistLoop]
    split
    · rw [List.zip_cons_cons, List.chain'_cons']
      refine ⟨?_, ih e (c + 1)⟩
      intro y hy
      exact dayDistLoop_head_rel rest e (c + 1) y (Option.mem_def.mp hy)
    · rename_i hcond
      have he : dtDay d = dtDay e := not_ne_iff.mp hcond
      rw [he, List.zip_cons_cons, List.chain'_cons']
      refine ⟨?_, ih e c⟩
      intro y hy
      exact dayDistLoop_head_rel rest e c y (Option.mem_def.mp hy)

/-- Counterexample for C2: 2024-01-05 09:00 followed by 2024-02-05 09:00 is a
sorted, duplicate-free sequence crossing two distinct calendar days whose
day-of-month number repeats; the DAY strategy produces `[0, 0]`, not the
`[0, 1]` that an increase of one at a calendar-day boundary would require. -/
theorem dayStrategyMonthWrapCex :
    calcEndDistribution (fun _ => 0) EndUrlDistribution.DAY
      [mkDateTime 2024 1 5 9 0 0, mkDateTime 2024 2 5 9 0 0] = some [0, 0] ∧
    mkDateTime 2024 1 5 9 0 0 < mkDateTime 2024 2 5 9 0 0 ∧
    sameCalendarDay (mkDateTime 2024 1 5 9 0 0) (mkDateTime 2024 2 5 9 0 0) = false := by
  refine ⟨by decide, by decide, by decide⟩

/-- C2 amended: for a non-empty timestamp sequence, the DAY strategy yields a
same-length index sequence that starts at 0, is monotonically non-decreasing,
and between consecutive timestamps stays constant when their day-of-month
fields coincide (in particular within a calendar day) and increases by
exactly one when the day-of-month field changes — so a crossing between
distinct calendar days whose day numbers coincide does not increase it. -/
theorem dayStrategySpec (rand : Nat → Nat) (d0 : Int) (rest : List Int) :
    ∃ ys,
      calcEndDistribution rand EndUrlDistribution.DAY (d0 :: rest) = some ys ∧
      ys.length = (d0 :: rest).length ∧
      ys.head? = some 0 ∧
      List.Chain' (fun p q : Int × Nat => q.2 = p.2 + if dtDay q.1 = dtDay p.1 then 0 else 1)
        ((d0 :: rest).zip ys) ∧
      List.Pairwise (· ≤ ·) ys := by
  refine ⟨dayDistLoop (dtDay d0) 0 (d0 :: rest), rfl, dayDistLoop_length _ _ _, ?_, ?_, ?_⟩
  · simp [dayDistLoop]
  · exact dayDistLoop_chain (d0 :: rest) d0 0
  · have hlen : (dayDistLoop (dtDay d0) 0 (d0 :: rest)).length = (d0 :: rest).length :=
      dayDistLoop_length _ _ _
    have hchain := dayDistLoop_chain (d0 :: rest) d0 0
    have hchain2 : List.Chain' (fun a b : Nat => a ≤ b)
        (((d0 :: rest).zip (dayDistLoop (dtDay d0) 0 (d0 :: rest))).map Prod.snd) := by
      rw [List.chain'_map]
      refine hchain.imp ?_
      intro a b hab
      split at hab <;> omega
    rw [List.map_snd_zip _ _ (le_of_eq hlen)] at hchain2
    exact List.chain'_iff_pairwise.mp hchain2

/-! ## Claim C4: order and duplicates in the day-calc generator -/

/-- Membership characterization of a wakeup-anchored block. -/
theorem mem_addDates (x date : Int) (ts : TimeSettings) :
    x ∈ addDates date ts ↔ ∃ j : Nat, j < ts.survey_count.toNat ∧
      x = getDateTime date ts.wakeup_time + ts.delay_minutes_after_wakeup * 60 +
        (j : Int) * (ts.delay_minutes_between_surveys * 60) := by
  rw [addDates_eq]
  simp only [List.mem_map, List.mem_range]
  constructor
  · rintro ⟨j, hj, rfl⟩
    exact ⟨j, hj, rfl⟩
  · rintro ⟨j, hj, rfl⟩
    exact ⟨j, hj, rfl⟩

/-- Shifting the anchor by whole days shifts the generated block rigidly. -/
theorem getDateTime_shift (today delta : Int) (w : Time) :
    getDateTime (today + delta * 86400) w = getDateTime today w + delta * 86400 := by
  simp only [getDateTime]
  omega

/-- A single wakeup-anchored block is strictly increasing when the
between-surveys delay is positive. -/
theorem addDates_pairwise (date : Int) (ts : TimeSettings)
    (hdb : 0 < ts.delay_minutes_between_surveys) :
    List.Pairwise (· < ·) (addDates date ts) := by
  rw [addDates_eq]
  refine List.Pairwise.map _ ?_ (List.pairwise_lt_range ts.survey_count.toNat)
  intro a b hab
  have hab' : (a : Int) < (b : Int) := by exact_mod_cast hab
  have hpos : (0 : Int) < ts.delay_minutes_between_surveys * 60 := by linarith
  have := mul_lt_mul_of_pos_right hab' hpos
  linarith

/-- Every element of the settings-branch output belongs to the block of one
of the day offsets. -/
theorem mem_dayCalcSettings (today : Int) (ts : TimeSettings) (dayList : List Int) (b : Int)
    (hb : b ∈ dayCalcSettings today ts dayList) :
    ∃ delta ∈ dayList, b ∈ addDates (today + delta * 86400) ts := by
  induction dayList with
  | nil => simp [dayCalcSettings] at hb
  | cons d r ih =>
    simp only [dayCalcSettings, List.mem_append] at hb
    rcases hb with h | h
    · exact ⟨d, List.mem_cons_self _ _, h⟩
    · obtain ⟨delta, hdel, hbb⟩ := ih h
      exact ⟨delta, List.mem_cons_of_mem _ hdel, hbb⟩

/-- The settings branch of the day-calc generator is strictly increasing
provided the day offsets strictly increase, the between-surveys delay is
positive and one day's block spans less than 24 hours. -/
theorem dayCalcSettings_pairwise (today : Int) (ts : TimeSettings) (dayList : List Int)
    (hdays : List.Pairwise (· < ·) dayList)
    (hdb : 0 < ts.delay_minutes_between_surveys)
    (hspan : ((ts.survey_count.toNat - 1 : Nat) : Int) *
      (ts.delay_minutes_between_surveys * 60) < 86400) :
    List.Pairwise (· < ·) (dayCalcSettings today ts dayList) := by
  induction dayList with
  | nil => exact List.Pairwise.nil
  | cons delta drest ih =>
    obtain ⟨hhead, htail⟩ := List.pairwise_cons.mp hdays
    show List.Pairwise (· < ·) (addDates (today + delta * 86400) ts ++ dayCalcSettings today ts drest)
    rw [List.pairwise_append]
    refine ⟨addDates_pairwise _ _ hdb, ih htail, ?_⟩
    intro a ha b hb
    obtain ⟨delta', hd', hb'⟩ := mem_dayCalcSettings today ts drest b hb
    obtain ⟨j1, hj1, ha1⟩ := (mem_addDates a _ ts).mp ha
    obtain ⟨j2, hj2, hb1⟩ := (mem_addDates b _ ts).mp hb'
    have hdelta : delta < delta' := hhead delta' hd'
    rw [getDateTime_shift] at ha1 hb1
    have hj1' : (j1 : Int) ≤ ((ts.survey_count.toNat - 1 : Nat) : Int) := by
      have : j1 ≤ ts.survey_count.toNat - 1 := by omega
      exact_mod_cast this
    have h1 : (j1 : Int) * (ts.delay_minutes_between_surveys * 60) ≤
        ((ts.survey_count.toNat - 1 : Nat) : Int) * (ts.delay_minutes_between_surveys * 60) :=
      mul_le_mul_of_nonneg_right hj1' (by linarith)
    have h2 : (0 : Int) ≤ (j2 : Int) * (ts.delay_minutes_between_surveys * 60) :=
      mul_nonneg (by exact_mod_cast Nat.zero_le j2) (by linarith)
    have h3 : (delta + 1 : Int) ≤ delta' := by linarith
    have h4 : (delta + 1 : Int) * 86400 ≤ delta' * 86400 := by linarith
    rw [ha1, hb1]
    linarith

/-- The lists branch of the day-calc generator succeeds and is strictly
increasing provided there are enough day offsets, the offsets strictly
increase, and each per-offset time list strictly increases; every produced
timestamp lies inside its offset's calendar day. -/
theorem dayCalcLists_pairwise (today : Int) (timeLists : List (List Time)) :
    ∀ dayList : List Int,
    List.Pairwise (· < ·) dayList →
    timeLists.length ≤ dayList.length →
    (∀ tl ∈ timeLists, List.Pairwise (fun a b : Time => a.secs < b.secs) tl) →
    ∃ out, dayCalcLists today dayList timeLists = some out ∧
      List.Pairwise (· < ·) out ∧
      ∀ x ∈ out, ∃ delta ∈ dayList,
        today - today % 86400 + delta * 86400 ≤ x ∧
        x < today - today % 86400 + delta * 86400 + 86400 := by
  induction timeLists with
  | nil =>
    intro dayList _ _ _
    refine ⟨[], ?_, List.Pairwise.nil, by simp⟩
    cases dayList <;> rfl
  | cons times trest ih =>
    intro dayList hdays hlen htimes
    cases dayList with
    | nil => simp at hlen
    | cons delta drest =>
      obtain ⟨hhead, htail⟩ := List.pairwise_cons.mp hdays
      obtain ⟨out', hout', hpw', hbound'⟩ :=
        ih drest htail (by simpa using hlen) (fun tl h => htimes tl (List.mem_cons_of_mem _ h))
      refine ⟨times.map (fun t => getDateTime (today + delta * 86400) t) ++ out', ?_, ?_, ?_⟩
      · simp [dayCalcLists, hout']
      · rw [List.pairwise_append]
        refine ⟨?_, hpw', ?_⟩
        · refine List.Pairwise.map _ ?_ (htimes times (List.mem_cons_self _ _))
          intro a b hab
          simp only [getDateTime]
          omega
        · intro a ha b hb
          obtain ⟨t, ht, rfl⟩ := List.mem_map.mp ha
          obtain ⟨delta', hd', hb1, hb2⟩ := hbound' b hb
          have hdelta : delta < delta' := hhead delta' hd'
          have h1 := t.hour_lt
          have h2 := t.minute_lt
          simp only [getDateTime, Time.secs]
          omega
      · intro x hx
        rcases List.mem_append.mp hx with h | h
        · obtain ⟨t, ht, rfl⟩ := List.mem_map.mp h
          refine ⟨delta, List.mem_cons_self _ _, ?_, ?_⟩ <;>
          · have h1 := t.hour_lt
            have h2 := t.minute_lt
            simp only [getDateTime, Time.secs]
            omega
        · obtain ⟨delta', hd', hx1, hx2⟩ := hbound' x h
          exact ⟨delta', List.mem_cons_of_mem _ hd', hx1, hx2⟩

/-- Counterexample for C4: day offsets `[1, 0]` (a list of integer
day-offsets) paired with wakeup-derived settings produce a block for day +1
followed by a block for day +0 — the fourth element precedes the third — and
repeated offsets `[0, 0]` duplicate every timestamp: the generator neither
sorts nor deduplicates. -/
theorem dayCalcUnsortedCex :
    dayCalcSettings (mkDateTime 2024 3 10 12 34 56) wakeupSettingsEx [1, 0] =
      [mkDateTime 2024 3 11 7 30 0, mkDateTime 2024 3 11 8 30 0, mkDateTime 2024 3 11 9 30 0,
       mkDateTime 2024 3 10 7 30 0, mkDateTime 2024 3 10 8 30 0, mkDateTime 2024 3 10 9 30 0] ∧
    mkDateTime 2024 3 10 7 30 0 < mkDateTime 2024 3 11 9 30 0 ∧
    dayCalcSettings (mkDateTime 2024 3 10 12 34 56) wakeupSettingsEx [0, 0] =
      [mkDateTime 2024 3 10 7 30 0, mkDateTime 2024 3 10 8 30 0, mkDateTime 2024 3 10 9 30 0,
       mkDateTime 2024 3 10 7 30 0, mkDateTime 2024 3 10 8 30 0, mkDateTime 2024 3 10 9 30 0] :=
  ⟨by decide, by decide, by decide⟩

/-- C4 amended: the day-calc generator concatenates per-offset blocks in
input order without sorting or deduplicating; its output is strictly
increasing (so free of duplicates) provided the day offsets strictly
increase and, in the wakeup-settings form, the between-surveys delay is
positive with each day's block spanning under 24 hours, or, in the
per-offset-time-lists form, each time list strictly increases and there are
at least as many offsets as time lists. -/
theorem dayCalcSortedSpec (today : Int) (dayList : List Int) (ts : TimeSettings)
    (timeLists : List (List Time)) (hdays : List.Pairwise (· < ·) dayList) :
    (0 < ts.delay_minutes_between_surveys →
      ((ts.survey_count.toNat - 1 : Nat) : Int) * (ts.delay_minutes_between_surveys * 60) < 86400 →
      List.Pairwise (· < ·) (dayCalcSettings today ts dayList)) ∧
    (timeLists.length ≤ dayList.length →
      (∀ tl ∈ timeLists, List.Pairwise (fun a b : Time => a.secs < b.secs) tl) →
      ∃ out, dayCalcLists today dayList timeLists = some out ∧
        List.Pairwise (· < ·) out) := by
  constructor
  · intro hdb hspan
    exact dayCalcSettings_pairwise today ts dayList hdays hdb hspan
  · intro hlen htimes
    obtain ⟨out, h1, h2, _⟩ := dayCalcLists_pairwise today timeLists dayList hdays hlen htimes
    exact ⟨out, h1, h2⟩

/-- Witness for C4: strictly increasing offsets `[0, 1]` with the 07:00
wakeup settings and with singleton time lists. -/
theorem dayCalcSortedSpecApplied :
    List.Pairwise (· < ·)
      (dayCalcSettings (mkDateTime 2024 3 10 12 34 56) wakeupSettingsEx [0, 1]) ∧
    ∃ out, dayCalcLists (mkDateTime 2024 3 10 12 34 56) [0, 1] [[timeNine], [timeSeven]] =
        some out ∧
      List.Pairwise (· < ·) out := by
  have h := dayCalcSortedSpec (mkDateTime 2024 3 10 12 34 56) [0, 1] wakeupSettingsEx
    [[timeNine], [timeSeven]] (by decide)
  exact ⟨h.1 (by decide) (by decide), h.2 (by decide) (by decide)⟩

/-! ## Claim C8: validator aggregation -/

/-- Counterexample for C8: a configuration with a genuine violation
(subscription start after deadline) and an empty `end_url` under the `RANDOM`
distribution makes `validate_config` raise `StopIteration` from
`next(iter(...))`, so the collected violation is not reported as a single
`ConfigValidationException` carrying the message list. -/
theorem validateStopIterationCex :
    validateConfig stopIterConfig = Except.error PyExc.StopIteration ∧
    validateDatesAndTimes stopIterConfig =
      ["subscription start date is after subscription deadline"] :=
  ⟨rfl, rfl⟩

/-- A two-way conditional whose branches both succeed yields a success. -/
theorem ite_ok_exists {ε α : Type} (p : Prop) [Decidable p] (x y : α) :
    ∃ m, (if p then (Except.ok x : Except ε α) else Except.ok y) = Except.ok m := by
  by_cases h : p
  · exact ⟨x, if_pos h⟩
  · exact ⟨y, if_neg h⟩

/-- With a non-empty `end_times` and a non-empty `end_url`, `validate_urls`
never raises and returns its message list. -/
theorem validateUrls_ok (c : Config) (h1 : c.end_times ≠ []) (h2 : c.urls.end_url ≠ []) :
    ∃ msgs, validateUrls c = Except.ok msgs := by
  cases hdist : c.urls.end_url_distribution
  case NONE =>
    simp only [validateUrls, hdist]
    exact ⟨_, rfl⟩
  case DAY =>
    simp only [validateUrls, hdist]
    exact ite_ok_exists _ _ _
  case TIME =>
    by_cases hutc : c.useTimeCalculation = true
    · simp only [validateUrls, hdist, hutc, if_true]
      exact ⟨_, rfl⟩
    · cases het : c.end_times with
      | nil => exact absurd het h1
      | cons t0 restTimes =>
        simp only [validateUrls, hdist, hutc, if_false, het]
        exact ite_ok_exists _ _ _
  case MIXED =>
    simp only [validateUrls, hdist]
    exact ⟨_, rfl⟩
  case RANDOM =>
    cases heu : c.urls.end_url with
    | nil => exact absurd heu h2
    | cons u0 restUrls =>
      simp only [validateUrls, hdist, heu]
      exact ite_ok_exists _ _ _

/-- C8 amended: provided `end_times` and `end_url` are non-empty (otherwise
`validate_urls` raises `StopIteration`), startup validation collects every
violation message from the three validators into one list in one pass and
raises a single `ConfigValidationException` carrying the full list exactly
when at least one violation exists; a violation-free configuration passes
without error. -/
theorem validateAggregationSpec (c : Config) (h1 : c.end_times ≠ []) (h2 : c.urls.end_url ≠ []) :
    ∃ urlMsgs, validateUrls c = Except.ok urlMsgs ∧
      validateConfig c =
        (if validateDatesAndTimes c ++ validateLinkDeletionSettings c ++ urlMsgs = []
         then Except.ok ()
         else Except.error (PyExc.ConfigValidationException
           (validateDatesAndTimes c ++ validateLinkDeletionSettings c ++ urlMsgs))) := by
  obtain ⟨m, hm⟩ := validateUrls_ok c h1 h2
  refine ⟨m, hm, ?_⟩
  simp only [validateConfig, hm]
  split_ifs <;> simp_all

/-- Witness for C8: the minimal well-formed configuration, which validates
without error. -/
theorem validateAggregationSpecApplied :
    ∃ urlMsgs, validateUrls minimalConfig = Except.ok urlMsgs ∧
      validateConfig minimalConfig =
        (if validateDatesAndTimes minimalConfig ++ validateLinkDeletionSettings minimalConfig ++
            urlMsgs = []
         then Except.ok ()
         else Except.error (PyExc.ConfigValidationException
           (validateDatesAndTimes minimalConfig ++ validateLinkDeletionSettings minimalConfig ++
             urlMsgs))) :=
  validateAggregationSpec minimalConfig (by decide) (by decide)

end SurveyBot
